import Mathlib

/-!
Shallow embedding of the AD-HTC combined-cycle analysis script (`src/app.py`).

The script is straight-line arithmetic over property lookups supplied by the
`pyromat` library objects `air = pm.get("ig.air")` and `steam = pm.get("mp.H2O")`.
We model each library object as a record of lookup functions returning
`Option ℚ` (a lookup outside the backend's domain raises an exception in the
script, which the surrounding `try`/`except` turns into an error banner and no
result).  All quantities are rationals; the script itself performs only field
arithmetic on the looked-up values, which we transcribe line by line.
-/

namespace ADHTC

/-- The capability set of the ideal-gas air object used by the script:
`air.h(T,p)`, `air.s(T,p)`, `air.T_s(s,p)`, `air.T_h(h,p)`. -/
structure GasProvider where
  h : ℚ → ℚ → Option ℚ
  s : ℚ → ℚ → Option ℚ
  T_s : ℚ → ℚ → Option ℚ
  T_h : ℚ → ℚ → Option ℚ

/-- The capability set of the water/steam object used by the script:
superheated `h(p,T)`/`s(p,T)`, saturation-mixture `h(p,x)`/`s(p,x)`,
quality `x(s,p)` and back-resolution `s(h,p)`. -/
structure SteamProvider where
  h_pT : ℚ → ℚ → Option ℚ
  s_pT : ℚ → ℚ → Option ℚ
  h_px : ℚ → ℚ → Option ℚ
  s_px : ℚ → ℚ → Option ℚ
  x_sp : ℚ → ℚ → Option ℚ
  s_hp : ℚ → ℚ → Option ℚ

/-- The sidebar inputs of the script, in source order. -/
structure Inputs where
  biogas_lhv : ℚ
  m_fuel : ℚ
  p1 : ℚ
  t1 : ℚ
  rp : ℚ
  eta_c : ℚ
  eta_t_gas : ℚ
  p_boiler : ℚ
  t_boiler : ℚ
  p_cond : ℚ
  eta_t_steam : ℚ

/-- The constant air mass flow of app.py line 53 (`m_air = 15.0`, commented
there as a constant air-fuel-ratio assumption). -/
def m_air : ℚ := 15

/-- The gas-side state variables computed by the script (app.py lines 41-64). -/
structure GasStates where
  s1 : ℚ
  h1 : ℚ
  p2 : ℚ
  s2s : ℚ
  t2s : ℚ
  h2s : ℚ
  h2 : ℚ
  t2 : ℚ
  h3 : ℚ
  p3 : ℚ
  t3 : ℚ
  p4 : ℚ
  s3 : ℚ
  t4s : ℚ
  h4s : ℚ
  h4 : ℚ
  t4 : ℚ
  deriving DecidableEq

/-- The steam-side state variables computed by the script (app.py lines 69-83). -/
structure SteamStates where
  h1s : ℚ
  s1s : ℚ
  h3s : ℚ
  s3s : ℚ
  s4s_ideal : ℚ
  x4s : ℚ
  h4s_ideal : ℚ
  h4s_actual : ℚ
  s4s_actual : ℚ
  deriving DecidableEq

/-- The BRAYTON CYCLE CALCULATIONS block of app.py (lines 37-64), transcribed
line by line: states 1 (inlet), 2 (compressor exit), 3 (combustion) and
4 (turbine exit). -/
def braytonCycle (air : GasProvider) (biogas_lhv m_fuel p1 t1 rp eta_c eta_t_gas : ℚ) :
    Option GasStates := do
  let s1 ← air.s t1 p1
  let h1 ← air.h t1 p1
  let p2 := p1 * rp
  let s2s := s1
  let t2s ← air.T_s s2s p2
  let h2s ← air.h t2s p2
  let h2 := h1 + (h2s - h1) / eta_c
  let t2 ← air.T_h h2 p2
  let h3 := (m_air * h2 + m_fuel * biogas_lhv) / (m_air + m_fuel)
  let p3 := p2
  let t3 ← air.T_h h3 p3
  let p4 := p1
  let s3 ← air.s t3 p3
  let t4s ← air.T_s s3 p4
  let h4s ← air.h t4s p4
  let h4 := h3 - eta_t_gas * (h3 - h4s)
  let t4 ← air.T_h h4 p4
  pure ⟨s1, h1, p2, s2s, t2s, h2s, h2, t2, h3, p3, t3, p4, s3, t4s, h4s, h4, t4⟩

/-- The STEAM CYCLE (RANKINE) block of app.py (lines 66-83), transcribed line
by line.  It reads only the boiler pressure/temperature, the condenser
pressure and the steam-turbine efficiency. -/
def rankineCycle (steam : SteamProvider) (p_boiler t_boiler p_cond eta_t_steam : ℚ) :
    Option SteamStates := do
  let h1s ← steam.h_px p_cond 0
  let s1s ← steam.s_px p_cond 0
  let h3s ← steam.h_pT p_boiler t_boiler
  let s3s ← steam.s_pT p_boiler t_boiler
  let s4s_ideal := s3s
  let x4s ← steam.x_sp s4s_ideal p_cond
  let h4s_ideal ← steam.h_px p_cond x4s
  let h4s_actual := h3s - eta_t_steam * (h3s - h4s_ideal)
  let s4s_actual ← steam.s_hp h4s_actual p_cond
  pure ⟨h1s, s1s, h3s, s3s, s4s_ideal, x4s, h4s_ideal, h4s_actual, s4s_actual⟩

/-- Everything one ANALYZE SYSTEM run produces: the two state blocks, the two
displayed metrics (app.py lines 88-91) and the T-H chart quantities
(lines 123-124). -/
structure Results where
  gas : GasStates
  st : SteamStates
  m_air_used : ℚ
  gasWork : ℚ
  steamWork : ℚ
  metrics : List (String × ℚ)
  t_stack : ℚ
  h_stack : ℚ
  H_gas_total : ℚ
  deriving DecidableEq

/-- One press of the ANALYZE SYSTEM button (app.py lines 35-136): the Brayton
block, the Rankine block, the two displayed work metrics and the waste-heat
duty `H_gas_total = (m_air + m_fuel) * (h4 - air.h(T=t_stack, p=p4))` with
`t_stack = 450.0`. -/
def analyzeSystem (air : GasProvider) (steam : SteamProvider) (i : Inputs) :
    Option Results := do
  let g ← braytonCycle air i.biogas_lhv i.m_fuel i.p1 i.t1 i.rp i.eta_c i.eta_t_gas
  let st ← rankineCycle steam i.p_boiler i.t_boiler i.p_cond i.eta_t_steam
  let gasWork := (g.h3 - g.h4) - (g.h2 - g.h1)
  let steamWork := st.h3s - st.h4s_actual
  let t_stack : ℚ := 450
  let h_stack ← air.h t_stack g.p4
  let H_gas_total := (m_air + i.m_fuel) * (g.h4 - h_stack)
  pure ⟨g, st, m_air, gasWork, steamWork,
    [("Gas Cycle Work", gasWork), ("Steam Cycle Work", steamWork)],
    t_stack, h_stack, H_gas_total⟩

/-- A concrete, total, internally consistent ideal-gas provider used to
instantiate theorems on concrete runs: `h(T,p) = T`, `s(T,p) = T - p`, and
the inverse lookups invert them exactly. -/
def gasLinear : GasProvider :=
  ⟨fun T _ => some T, fun T p => some (T - p), fun s p => some (s + p), fun h _ => some h⟩

/-- A concrete total steam provider for instantiating theorems on concrete
runs. -/
def steamLinear : SteamProvider :=
  ⟨fun _ T => some T, fun _ T => some T, fun _ x => some (10 * x), fun _ x => some x,
    fun s _ => some (s / 2), fun h _ => some h⟩

/-- Inversion lemma: a successful Brayton block satisfies, field by field,
exactly the equations of app.py lines 41-64. -/
theorem braytonCycle_spec (air : GasProvider) (biogas_lhv m_fuel p1 t1 rp eta_c eta_t_gas : ℚ)
    (g : GasStates)
    (h : braytonCycle air biogas_lhv m_fuel p1 t1 rp eta_c eta_t_gas = some g) :
    air.s t1 p1 = some g.s1 ∧
    air.h t1 p1 = some g.h1 ∧
    g.p2 = p1 * rp ∧
    g.s2s = g.s1 ∧
    air.T_s g.s2s g.p2 = some g.t2s ∧
    air.h g.t2s g.p2 = some g.h2s ∧
    g.h2 = g.h1 + (g.h2s - g.h1) / eta_c ∧
    air.T_h g.h2 g.p2 = some g.t2 ∧
    g.h3 = (m_air * g.h2 + m_fuel * biogas_lhv) / (m_air + m_fuel) ∧
    g.p3 = g.p2 ∧
    air.T_h g.h3 g.p3 = some g.t3 ∧
    g.p4 = p1 ∧
    air.s g.t3 g.p3 = some g.s3 ∧
    air.T_s g.s3 g.p4 = some g.t4s ∧
    air.h g.t4s g.p4 = some g.h4s ∧
    g.h4 = g.h3 - eta_t_gas * (g.h3 - g.h4s) ∧
    air.T_h g.h4 g.p4 = some g.t4 := by
  simp only [braytonCycle, Option.bind_eq_bind, Option.bind_eq_some, Option.pure_def,
    Option.some.injEq] at h
  obtain ⟨s1, hs1, h1, hh1, t2s, ht2s, h2s, hh2s, t2, ht2, t3, ht3, s3, hs3,
    t4s, ht4s, h4s, hh4s, t4, ht4, hg⟩ := h
  subst hg
  exact ⟨hs1, hh1, rfl, rfl, ht2s, hh2s, rfl, ht2, rfl, rfl, ht3, rfl, hs3, ht4s, hh4s, rfl, ht4⟩

/-- Inversion lemma: a successful Rankine block satisfies, field by field,
exactly the equations of app.py lines 69-83. -/
theorem rankineCycle_spec (steam : SteamProvider) (p_boiler t_boiler p_cond eta_t_steam : ℚ)
    (st : SteamStates)
    (h : rankineCycle steam p_boiler t_boiler p_cond eta_t_steam = some st) :
    steam.h_px p_cond 0 = some st.h1s ∧
    steam.s_px p_cond 0 = some st.s1s ∧
    steam.h_pT p_boiler t_boiler = some st.h3s ∧
    steam.s_pT p_boiler t_boiler = some st.s3s ∧
    st.s4s_ideal = st.s3s ∧
    steam.x_sp st.s4s_ideal p_cond = some st.x4s ∧
    steam.h_px p_cond st.x4s = some st.h4s_ideal ∧
    st.h4s_actual = st.h3s - eta_t_steam * (st.h3s - st.h4s_ideal) ∧
    steam.s_hp st.h4s_actual p_cond = some st.s4s_actual := by
  simp only [rankineCycle, Option.bind_eq_bind, Option.bind_eq_some, Option.pure_def,
    Option.some.injEq] at h
  obtain ⟨h1s, hh1s, s1s, hs1s, h3s, hh3s, s3s, hs3s, x4s, hx4s, h4si, hh4si, s4sa, hs4sa, hst⟩ := h
  subst hst
  exact ⟨hh1s, hs1s, hh3s, hs3s, rfl, hx4s, hh4si, rfl, hs4sa⟩

/-- Inversion lemma: a successful ANALYZE SYSTEM run decomposes into a
successful Brayton block, a successful Rankine block fed only by the four
steam-side inputs, and the reporting quantities of app.py lines 88-91 and
123-124. -/
theorem analyzeSystem_spec (air : GasProvider) (steam : SteamProvider) (i : Inputs)
    (r : Results) (h : analyzeSystem air steam i = some r) :
    braytonCycle air i.biogas_lhv i.m_fuel i.p1 i.t1 i.rp i.eta_c i.eta_t_gas = some r.gas ∧
    rankineCycle steam i.p_boiler i.t_boiler i.p_cond i.eta_t_steam = some r.st ∧
    r.m_air_used = m_air ∧
    r.gasWork = (r.gas.h3 - r.gas.h4) - (r.gas.h2 - r.gas.h1) ∧
    r.steamWork = r.st.h3s - r.st.h4s_actual ∧
    r.metrics = [("Gas Cycle Work", r.gasWork), ("Steam Cycle Work", r.steamWork)] ∧
    r.t_stack = 450 ∧
    air.h r.t_stack r.gas.p4 = some r.h_stack ∧
    r.H_gas_total = (m_air + i.m_fuel) * (r.gas.h4 - r.h_stack) := by
  simp only [analyzeSystem, Option.bind_eq_bind, Option.bind_eq_some, Option.pure_def,
    Option.some.injEq] at h
  obtain ⟨g, hg, st, hst, hsk, hhsk, hr⟩ := h
  subst hr
  exact ⟨hg, hst, rfl, rfl, rfl, rfl, rfl, hhsk, rfl⟩

/-- Concrete inputs for positive witnesses: LHV 0, fuel flow 0, p1 = 1 bar,
T1 = 300 K, rp = 10, both gas-side efficiencies 1, boiler 40 bar / 700 K,
condenser 0.1 bar, steam-turbine efficiency 1. -/
def iW : Inputs := ⟨0, 0, 1, 300, 10, 1, 1, 40, 700, 1 / 10, 1⟩

/-- The result of running the analysis on `iW` with the linear providers. -/
def rW : Results :=
  ⟨⟨299, 300, 10, 299, 309, 309, 309, 309, 309, 10, 309, 1, 299, 300, 300, 300, 300⟩,
   ⟨0, 0, 700, 700, 700, 350, 3500, 3500, 3500⟩,
   15, 0, -2800,
   [("Gas Cycle Work", 0), ("Steam Cycle Work", -2800)],
   450, 450, -2250⟩

theorem analyzeW : analyzeSystem gasLinear steamLinear iW = some rW := by
  simp only [analyzeSystem, braytonCycle, rankineCycle, gasLinear, steamLinear, iW, rW, m_air,
    Option.bind_eq_bind, Option.some_bind, Option.pure_def, Option.some.injEq]
  norm_num

/-- C4: for every valid input whose analysis succeeds, the gas-cycle states
are computed in the specified sequence — p2 = p1·rp, s2s = s1,
T2s = T_from_s(s2s,p2), h2s = h(T2s,p2), h2 = h1 + (h2s−h1)/ηc,
T2 = T_from_h(h2,p2), p4 = p1, s3 = s(T3,p3), h4s = h(T_from_s(s3,p4),p4),
h4 = h3 − ηt·(h3−h4s) — and the reported gas-cycle net work equals
(h3−h4)−(h2−h1). -/
theorem c4_gas_sequence (air : GasProvider) (steam : SteamProvider) (i : Inputs)
    (r : Results) (h : analyzeSystem air steam i = some r) :
    r.gas.p2 = i.p1 * i.rp ∧
    r.gas.s2s = r.gas.s1 ∧
    air.T_s r.gas.s2s r.gas.p2 = some r.gas.t2s ∧
    air.h r.gas.t2s r.gas.p2 = some r.gas.h2s ∧
    r.gas.h2 = r.gas.h1 + (r.gas.h2s - r.gas.h1) / i.eta_c ∧
    air.T_h r.gas.h2 r.gas.p2 = some r.gas.t2 ∧
    r.gas.p4 = i.p1 ∧
    air.s r.gas.t3 r.gas.p3 = some r.gas.s3 ∧
    air.T_s r.gas.s3 r.gas.p4 = some r.gas.t4s ∧
    air.h r.gas.t4s r.gas.p4 = some r.gas.h4s ∧
    r.gas.h4 = r.gas.h3 - i.eta_t_gas * (r.gas.h3 - r.gas.h4s) ∧
    r.gasWork = (r.gas.h3 - r.gas.h4) - (r.gas.h2 - r.gas.h1) := by
  obtain ⟨hb, -, -, hw, -, -, -, -, -⟩ := analyzeSystem_spec air steam i r h
  obtain ⟨-, -, hp2, hs2s, ht2s, hh2s, hh2, ht2, -, -, -, hp4, hs3, ht4s, hh4s, hh4, -⟩ :=
    braytonCycle_spec air i.biogas_lhv i.m_fuel i.p1 i.t1 i.rp i.eta_c i.eta_t_gas r.gas hb
  exact ⟨hp2, hs2s, ht2s, hh2s, hh2, ht2, hp4, hs3, ht4s, hh4s, hh4, hw⟩

theorem c4_witness :
    rW.gas.p2 = iW.p1 * iW.rp ∧
    rW.gas.s2s = rW.gas.s1 ∧
    gasLinear.T_s rW.gas.s2s rW.gas.p2 = some rW.gas.t2s ∧
    gasLinear.h rW.gas.t2s rW.gas.p2 = some rW.gas.h2s ∧
    rW.gas.h2 = rW.gas.h1 + (rW.gas.h2s - rW.gas.h1) / iW.eta_c ∧
    gasLinear.T_h rW.gas.h2 rW.gas.p2 = some rW.gas.t2 ∧
    rW.gas.p4 = iW.p1 ∧
    gasLinear.s rW.gas.t3 rW.gas.p3 = some rW.gas.s3 ∧
    gasLinear.T_s rW.gas.s3 rW.gas.p4 = some rW.gas.t4s ∧
    gasLinear.h rW.gas.t4s rW.gas.p4 = some rW.gas.h4s ∧
    rW.gas.h4 = rW.gas.h3 - iW.eta_t_gas * (rW.gas.h3 - rW.gas.h4s) ∧
    rW.gasWork = (rW.gas.h3 - rW.gas.h4) - (rW.gas.h2 - rW.gas.h1) :=
  c4_gas_sequence gasLinear steamLinear iW rW analyzeW

/-- C5: for every input whose analysis succeeds, the combustor-exit enthalpy
equals the mass-weighted mixing value h3 = (ṅ_air·h2 + ṅ_fuel·LHV)/(ṅ_air+ṅ_fuel)
with ṅ_air = m_air, and the combustor pressure is unchanged (p3 = p2). -/
theorem c5_combustion_mixing (air : GasProvider) (steam : SteamProvider) (i : Inputs)
    (r : Results) (h : analyzeSystem air steam i = some r) :
    r.gas.h3 = (m_air * r.gas.h2 + i.m_fuel * i.biogas_lhv) / (m_air + i.m_fuel) ∧
    r.gas.p3 = r.gas.p2 := by
  obtain ⟨hb, -, -, -, -, -, -, -, -⟩ := analyzeSystem_spec air steam i r h
  obtain ⟨-, -, -, -, -, -, -, -, hh3, hp3, -, -, -, -, -, -, -⟩ :=
    braytonCycle_spec air i.biogas_lhv i.m_fuel i.p1 i.t1 i.rp i.eta_c i.eta_t_gas r.gas hb
  exact ⟨hh3, hp3⟩

theorem c5_witness :
    rW.gas.h3 = (m_air * rW.gas.h2 + iW.m_fuel * iW.biogas_lhv) / (m_air + iW.m_fuel) ∧
    rW.gas.p3 = rW.gas.p2 :=
  c5_combustion_mixing gasLinear steamLinear iW rW analyzeW

/-- C7: for every input whose analysis succeeds, the steam-cycle actual
turbine-exit enthalpy equals h4 = h3 − ηt_steam·(h3−h4s), its entropy is
back-resolved from (h4, p_cond) through the property provider, and the
reported steam-cycle work equals h3 − h4. -/
theorem c7_steam_actual (air : GasProvider) (steam : SteamProvider) (i : Inputs)
    (r : Results) (h : analyzeSystem air steam i = some r) :
    r.st.h4s_actual = r.st.h3s - i.eta_t_steam * (r.st.h3s - r.st.h4s_ideal) ∧
    steam.s_hp r.st.h4s_actual i.p_cond = some r.st.s4s_actual ∧
    r.steamWork = r.st.h3s - r.st.h4s_actual := by
  obtain ⟨-, hr, -, -, hw, -, -, -, -⟩ := analyzeSystem_spec air steam i r h
  obtain ⟨-, -, -, -, -, -, -, hh4a, hs4a⟩ :=
    rankineCycle_spec steam i.p_boiler i.t_boiler i.p_cond i.eta_t_steam r.st hr
  exact ⟨hh4a, hs4a, hw⟩

theorem c7_witness :
    rW.st.h4s_actual = rW.st.h3s - iW.eta_t_steam * (rW.st.h3s - rW.st.h4s_ideal) ∧
    steamLinear.s_hp rW.st.h4s_actual iW.p_cond = some rW.st.s4s_actual ∧
    rW.steamWork = rW.st.h3s - rW.st.h4s_actual :=
  c7_steam_actual gasLinear steamLinear iW rW analyzeW

/-- C8: for every input whose analysis succeeds, the waste-heat duty equals
H_dot = (ṅ_air+ṅ_fuel)·(h4_gas − h_stack(T_stack)) with T_stack = 450, where
h_stack is the gas enthalpy at the stack temperature; and the steam-cycle
states are produced by the Rankine block from the four steam-side inputs
alone, so the duty never feeds back into the steam-cycle state computation. -/
theorem c8_waste_heat_decoupled (air : GasProvider) (steam : SteamProvider) (i : Inputs)
    (r : Results) (h : analyzeSystem air steam i = some r) :
    r.H_gas_total = (m_air + i.m_fuel) * (r.gas.h4 - r.h_stack) ∧
    air.h r.t_stack r.gas.p4 = some r.h_stack ∧
    r.t_stack = 450 ∧
    rankineCycle steam i.p_boiler i.t_boiler i.p_cond i.eta_t_steam = some r.st := by
  obtain ⟨-, hr, -, -, -, -, hts, hsk, hH⟩ := analyzeSystem_spec air steam i r h
  exact ⟨hH, hsk, hts, hr⟩

theorem c8_witness :
    rW.H_gas_total = (m_air + iW.m_fuel) * (rW.gas.h4 - rW.h_stack) ∧
    gasLinear.h rW.t_stack rW.gas.p4 = some rW.h_stack ∧
    rW.t_stack = 450 ∧
    rankineCycle steamLinear iW.p_boiler iW.t_boiler iW.p_cond iW.eta_t_steam = some rW.st :=
  c8_waste_heat_decoupled gasLinear steamLinear iW rW analyzeW

/-- C10: for every run that succeeds, the air mass flow used in both the
combustion energy balance and the waste-heat duty is the fixed constant 15,
independent of every user-supplied input. -/
theorem c10_constant_air_flow (air : GasProvider) (steam : SteamProvider) (i : Inputs)
    (r : Results) (h : analyzeSystem air steam i = some r) :
    r.m_air_used = 15 ∧
    r.gas.h3 = (r.m_air_used * r.gas.h2 + i.m_fuel * i.biogas_lhv) / (r.m_air_used + i.m_fuel) ∧
    r.H_gas_total = (r.m_air_used + i.m_fuel) * (r.gas.h4 - r.h_stack) := by
  obtain ⟨hb, -, hma, -, -, -, -, -, hH⟩ := analyzeSystem_spec air steam i r h
  obtain ⟨-, -, -, -, -, -, -, -, hh3, -, -, -, -, -, -, -, -⟩ :=
    braytonCycle_spec air i.biogas_lhv i.m_fuel i.p1 i.t1 i.rp i.eta_c i.eta_t_gas r.gas hb
  refine ⟨by rw [hma]; rfl, ?_, ?_⟩
  · rw [hma]; exact hh3
  · rw [hma]; exact hH

theorem c10_witness :
    rW.m_air_used = 15 ∧
    rW.gas.h3 = (rW.m_air_used * rW.gas.h2 + iW.m_fuel * iW.biogas_lhv) /
      (rW.m_air_used + iW.m_fuel) ∧
    rW.H_gas_total = (rW.m_air_used + iW.m_fuel) * (rW.gas.h4 - rW.h_stack) :=
  c10_constant_air_flow gasLinear steamLinear iW rW analyzeW

/-- The stated roundtrip property of the air object's inverse lookup:
`T_h` inverts `h` at fixed pressure wherever `h` is defined. -/
def RoundTrips (air : GasProvider) : Prop :=
  ∀ T p hval, air.h T p = some hval → air.T_h hval p = some T

/-- C9: when ηc = 1 and ηt = 1 the actual gas-cycle states coincide with the
isentropic ones (h2 = h2s, T2 = T2s, h4 = h4s, T4 = T4s, for a provider whose
`T_h` inverts `h`); and for general efficiencies the gaps obey
(h2−h2s)·ηc = (h2s−h1)·(1−ηc) and h4−h4s = (1−ηt)·(h3−h4s), so the actual
states converge to the isentropic ones as ηc→1 and ηt→1. -/
theorem c9_isentropic_limit (air : GasProvider) (hrt : RoundTrips air)
    (biogas_lhv m_fuel p1 t1 rp eta_c eta_t_gas : ℚ) (hec : eta_c ≠ 0) (g : GasStates)
    (h : braytonCycle air biogas_lhv m_fuel p1 t1 rp eta_c eta_t_gas = some g) :
    (g.h2 - g.h2s) * eta_c = (g.h2s - g.h1) * (1 - eta_c) ∧
    g.h4 - g.h4s = (1 - eta_t_gas) * (g.h3 - g.h4s) ∧
    (eta_c = 1 → g.h2 = g.h2s ∧ g.t2 = g.t2s) ∧
    (eta_t_gas = 1 → g.h4 = g.h4s ∧ g.t4 = g.t4s) := by
  obtain ⟨-, -, -, -, -, hh2s, hh2, ht2, -, -, -, -, -, -, hh4s, hh4, ht4⟩ :=
    braytonCycle_spec air biogas_lhv m_fuel p1 t1 rp eta_c eta_t_gas g h
  refine ⟨?_, ?_, ?_, ?_⟩
  · rw [hh2]; field_simp; ring
  · rw [hh4]; ring
  · intro h1
    have hh2' : g.h2 = g.h2s := by rw [hh2, h1]; ring
    refine ⟨hh2', ?_⟩
    have ht2s' : air.T_h g.h2s g.p2 = some g.t2s := hrt g.t2s g.p2 g.h2s hh2s
    rw [hh2'] at ht2
    exact Option.some.inj (ht2.symm.trans ht2s')
  · intro h1
    have hh4' : g.h4 = g.h4s := by rw [hh4, h1]; ring
    refine ⟨hh4', ?_⟩
    have ht4s' : air.T_h g.h4s g.p4 = some g.t4s := hrt g.t4s g.p4 g.h4s hh4s
    rw [hh4'] at ht4
    exact Option.some.inj (ht4.symm.trans ht4s')

theorem braytonW : braytonCycle gasLinear 0 0 1 300 10 1 1 = some rW.gas := by
  simp only [braytonCycle, gasLinear, rW, m_air,
    Option.bind_eq_bind, Option.some_bind, Option.pure_def, Option.some.injEq]
  norm_num

theorem c9_witness :
    (rW.gas.h2 - rW.gas.h2s) * 1 = (rW.gas.h2s - rW.gas.h1) * (1 - 1) ∧
    rW.gas.h4 - rW.gas.h4s = (1 - 1) * (rW.gas.h3 - rW.gas.h4s) ∧
    ((1 : ℚ) = 1 → rW.gas.h2 = rW.gas.h2s ∧ rW.gas.t2 = rW.gas.t2s) ∧
    ((1 : ℚ) = 1 → rW.gas.h4 = rW.gas.h4s ∧ rW.gas.t4 = rW.gas.t4s) :=
  c9_isentropic_limit gasLinear
    (fun T p hval hh => by
      simp only [gasLinear, Option.some.injEq] at hh
      simp only [gasLinear, hh])
    0 0 1 300 10 1 1 (by norm_num) rW.gas braytonW

/-- Saturation-boundary curves of the water/steam backend at a given
pressure: entropy and enthalpy at quality 0 (`_f`) and quality 1 (`_g`). -/
structure SatCurves where
  s_f : ℚ → ℚ
  s_g : ℚ → ℚ
  h_f : ℚ → ℚ
  h_g : ℚ → ℚ

/-- Modelled from the spec: the quality lookup `steam.x(s=·, p=·)` of the
pyromat `mp.H2O` object used at app.py line 80 is library code absent from
this repository; per the spec it interpolates between the saturated-liquid
and saturated-vapor entropy bounds, x = (s−s_f)/(s_g−s_f) when
s ∈ [s_f, s_g] at p, and fails (OutOfRange) otherwise, never clamping. -/
def quality_from_s (c : SatCurves) (s p : ℚ) : Option ℚ :=
  if c.s_f p ≤ s ∧ s ≤ c.s_g p then some ((s - c.s_f p) / (c.s_g p - c.s_f p)) else none

/-- Modelled from the spec: the saturation-mixture enthalpy lookup
`steam.h(p=·, x=·)` of the pyromat backend (app.py line 81), given by
quality-weighted interpolation of the boundary values. -/
def h_from_quality (c : SatCurves) (p x : ℚ) : ℚ :=
  c.h_f p + x * (c.h_g p - c.h_f p)

/-- Modelled from the spec: the saturation-mixture entropy lookup of the
backend, by the same quality-weighted interpolation. -/
def s_from_quality (c : SatCurves) (p x : ℚ) : ℚ :=
  c.s_f p + x * (c.s_g p - c.s_f p)

/-- A steam provider whose two-phase lookups follow the saturation curves
`c`; the superheated lookups and the (h,p) back-resolution are arbitrary. -/
def providerOfCurves (c : SatCurves) (h_pT s_pT s_hp : ℚ → ℚ → Option ℚ) : SteamProvider :=
  ⟨h_pT, s_pT, fun p x => some (h_from_quality c p x),
    fun p x => some (s_from_quality c p x), quality_from_s c, s_hp⟩

/-- C6: over a steam backend whose two-phase lookups interpolate the
saturation curves, whenever the Rankine block succeeds the isentropic
turbine-exit entropy s4s lies within [s_f, s_g] at p_cond, the resolved
quality x4s = (s4s−s_f)/(s_g−s_f) lies in [0,1] exactly, it reproduces s4s
under the entropy interpolation, and h4s is the quality-weighted
interpolation of h_f and h_g at x4s; and whenever s4s lies outside
[s_f, s_g] at p_cond, the block fails and produces no quality at all. -/
theorem c6_quality_law (c : SatCurves) (h_pT s_pT s_hp : ℚ → ℚ → Option ℚ)
    (p_boiler t_boiler p_cond eta_t_steam : ℚ)
    (hlt : c.s_f p_cond < c.s_g p_cond) :
    (∀ st, rankineCycle (providerOfCurves c h_pT s_pT s_hp)
        p_boiler t_boiler p_cond eta_t_steam = some st →
      c.s_f p_cond ≤ st.s4s_ideal ∧ st.s4s_ideal ≤ c.s_g p_cond ∧
      st.x4s = (st.s4s_ideal - c.s_f p_cond) / (c.s_g p_cond - c.s_f p_cond) ∧
      0 ≤ st.x4s ∧ st.x4s ≤ 1 ∧
      s_from_quality c p_cond st.x4s = st.s4s_ideal ∧
      st.h4s_ideal = h_from_quality c p_cond st.x4s) ∧
    (∀ v, s_pT p_boiler t_boiler = some v →
      (v < c.s_f p_cond ∨ c.s_g p_cond < v) →
      rankineCycle (providerOfCurves c h_pT s_pT s_hp)
        p_boiler t_boiler p_cond eta_t_steam = none) := by
  have hsub : (0 : ℚ) < c.s_g p_cond - c.s_f p_cond := sub_pos.2 hlt
  constructor
  · intro st hst
    obtain ⟨-, -, -, -, -, hx, hh4si, -, -⟩ :=
      rankineCycle_spec (providerOfCurves c h_pT s_pT s_hp)
        p_boiler t_boiler p_cond eta_t_steam st hst
    simp only [providerOfCurves, quality_from_s] at hx
    split at hx
    · next hdome =>
      obtain ⟨hlo, hhi⟩ := hdome
      have hxval : st.x4s = (st.s4s_ideal - c.s_f p_cond) / (c.s_g p_cond - c.s_f p_cond) :=
        (Option.some.inj hx).symm
      refine ⟨hlo, hhi, hxval, ?_, ?_, ?_, ?_⟩
      · rw [hxval]
        exact div_nonneg (sub_nonneg.2 hlo) hsub.le
      · rw [hxval]
        exact (div_le_one hsub).2 (by linarith)
      · rw [hxval, s_from_quality]
        field_simp
      · simp only [providerOfCurves, Option.some.injEq] at hh4si
        exact hh4si.symm
    · exact absurd hx (Option.noConfusion)
  · intro v hv hout
    have hnone : quality_from_s c v p_cond = none := by
      rw [quality_from_s, if_neg]
      rcases hout with h1 | h2
      · exact fun hc => absurd hc.1 (not_le.2 h1)
      · exact fun hc => absurd hc.2 (not_le.2 h2)
    rcases hh : h_pT p_boiler t_boiler with - | h3v
    · simp [rankineCycle, providerOfCurves, hh]
    · simp [rankineCycle, providerOfCurves, hh, hv, hnone]

/-- Concrete saturation curves for the C6 witness: s_f ≡ 0, s_g ≡ 1,
h_f ≡ 100, h_g ≡ 200. -/
def cW : SatCurves := ⟨fun _ => 0, fun _ => 1, fun _ => 100, fun _ => 200⟩

/-- Superheated-enthalpy lookup for the C6 witness. -/
def c6h : ℚ → ℚ → Option ℚ := fun _ T => some T

/-- Superheated-entropy lookup for the C6 witness. -/
def c6s : ℚ → ℚ → Option ℚ := fun _ T => some (T / 1000)

/-- Back-resolution lookup for the C6 witness. -/
def c6b : ℚ → ℚ → Option ℚ := fun hv _ => some hv

/-- The steam states of the C6 witness run. -/
def stW : SteamStates := ⟨100, 0, 700, 7 / 10, 7 / 10, 7 / 10, 170, 435, 435⟩

theorem rankineW6 :
    rankineCycle (providerOfCurves cW c6h c6s c6b) 40 700 (1 / 10) (1 / 2) = some stW := by
  simp only [rankineCycle, providerOfCurves, quality_from_s, h_from_quality, s_from_quality,
    cW, c6h, c6s, c6b, stW, Option.bind_eq_bind, Option.some_bind, Option.pure_def,
    Option.some.injEq]
  norm_num

/-- Every run with the total linear providers produces a result: no input
value is ever rejected by the script itself. -/
theorem analyze_linear_total (i : Inputs) :
    ∃ r, analyzeSystem gasLinear steamLinear i = some r := by
  simp only [analyzeSystem, braytonCycle, rankineCycle, gasLinear, steamLinear,
    Option.bind_eq_bind, Option.some_bind, Option.pure_def]
  exact ⟨_, rfl⟩

/-- Inputs refuting C1: the defaults with p1 = 1, ηc = 1/2, ηt_gas = 1,
ηt_steam = 1/2. -/
def iC1 : Inputs := ⟨20000, 1 / 2, 1, 300, 10, 1 / 2, 1, 40, 700, 1 / 10, 1 / 2⟩

/-- The result of the iC1 run with the linear providers. -/
def rC1 : Results :=
  ⟨⟨299, 300, 10, 299, 309, 309, 318, 318, 29540 / 31, 10, 29540 / 31, 1, 29230 / 31,
    29261 / 31, 29261 / 31, 29261 / 31, 29261 / 31⟩,
   ⟨0, 0, 700, 700, 700, 350, 3500, 2100, 2100⟩,
   15, -9, -1400,
   [("Gas Cycle Work", -9), ("Steam Cycle Work", -1400)],
   450, 450, 15311 / 2⟩

theorem analyzeC1 : analyzeSystem gasLinear steamLinear iC1 = some rC1 := by
  simp only [analyzeSystem, braytonCycle, rankineCycle, gasLinear, steamLinear, iC1, rC1, m_air,
    Option.bind_eq_bind, Option.some_bind, Option.pure_def, Option.some.injEq]
  norm_num

/-- C1 counterexample: on the iC1 run the whole displayed output is the two
net-work metrics; the gas-cycle thermal efficiency
((h3−h4)−(h2−h1))/(h3−h2) = −279/19682 and the steam-cycle thermal
efficiency (h3−h4)/(h3−h1) = −2 equal neither displayed value, so neither
efficiency is included in the output. -/
theorem c1_counterexample :
    analyzeSystem gasLinear steamLinear iC1 = some rC1 ∧
    rC1.metrics = [("Gas Cycle Work", -9), ("Steam Cycle Work", -1400)] ∧
    ((rC1.gas.h3 - rC1.gas.h4) - (rC1.gas.h2 - rC1.gas.h1)) / (rC1.gas.h3 - rC1.gas.h2) =
      -(279 / 19682) ∧
    (rC1.st.h3s - rC1.st.h4s_actual) / (rC1.st.h3s - rC1.st.h1s) = -2 ∧
    (-(279 / 19682) : ℚ) ≠ -9 ∧ (-(279 / 19682) : ℚ) ≠ -1400 ∧
    (-2 : ℚ) ≠ -9 ∧ (-2 : ℚ) ≠ -1400 := by
  refine ⟨analyzeC1, rfl, ?_, ?_, by norm_num, by norm_num, by norm_num, by norm_num⟩
  · show ((29540 / 31 - 29261 / 31) - (318 - 300) : ℚ) / (29540 / 31 - 318) = -(279 / 19682)
    norm_num
  · show ((700 - 2100 : ℚ)) / (700 - 0) = -2
    norm_num

/-- C1 (amended): for every successful analysis run, the program computes and
includes in its output the net specific work of each cycle — gas:
(h3−h4)−(h2−h1), steam: h3−h4 — and those two metrics are its entire
performance output; no thermal efficiency is computed or displayed. -/
theorem c1_work_only_output (air : GasProvider) (steam : SteamProvider) (i : Inputs)
    (r : Results) (h : analyzeSystem air steam i = some r) :
    r.metrics = [("Gas Cycle Work", r.gasWork), ("Steam Cycle Work", r.steamWork)] ∧
    r.gasWork = (r.gas.h3 - r.gas.h4) - (r.gas.h2 - r.gas.h1) ∧
    r.steamWork = r.st.h3s - r.st.h4s_actual := by
  obtain ⟨-, -, -, hw, hsw, hm, -, -, -⟩ := analyzeSystem_spec air steam i r h
  exact ⟨hm, hw, hsw⟩

theorem c1_witness :
    rW.metrics = [("Gas Cycle Work", rW.gasWork), ("Steam Cycle Work", rW.steamWork)] ∧
    rW.gasWork = (rW.gas.h3 - rW.gas.h4) - (rW.gas.h2 - rW.gas.h1) ∧
    rW.steamWork = rW.st.h3s - rW.st.h4s_actual :=
  c1_work_only_output gasLinear steamLinear iW rW analyzeW

/-- Inputs refuting C2: fuel mass flow −1, otherwise as iC1. -/
def iC2 : Inputs := ⟨20000, -1, 1, 300, 10, 1 / 2, 1, 40, 700, 1 / 10, 1 / 2⟩

/-- The result of the iC2 run with the linear providers. -/
def rC2 : Results :=
  ⟨⟨299, 300, 10, 299, 309, 309, 318, 318, -(7615 / 7), 10, -(7615 / 7), 1, -(7685 / 7),
    -(7678 / 7), -(7678 / 7), -(7678 / 7), -(7678 / 7)⟩,
   ⟨0, 0, 700, 700, 700, 350, 3500, 2100, 2100⟩,
   15, -9, -1400,
   [("Gas Cycle Work", -9), ("Steam Cycle Work", -1400)],
   450, 450, -21656⟩

/-- C2 counterexample: with ṅ_fuel = −1 the combustion-mixing step does not
fail — the run completes and produces a result whose h3 is the mixing
formula evaluated at ṅ_fuel = −1. -/
theorem c2_counterexample :
    analyzeSystem gasLinear steamLinear iC2 = some rC2 ∧
    iC2.m_fuel = -1 ∧
    rC2.gas.h3 = (15 * rC2.gas.h2 + iC2.m_fuel * iC2.biogas_lhv) / (15 + iC2.m_fuel) := by
  refine ⟨?_, rfl, ?_⟩
  · simp only [analyzeSystem, braytonCycle, rankineCycle, gasLinear, steamLinear, iC2, rC2,
      m_air, Option.bind_eq_bind, Option.some_bind, Option.pure_def, Option.some.injEq]
    norm_num
  · show (-(7615 / 7) : ℚ) = (15 * 318 + (-1) * 20000) / (15 + -1)
    norm_num

/-- C2 (amended): the combustion-mixing step performs no validation of the
fuel mass flow or LHV: for every input — negative values included, in
particular ṅ_fuel = −1 — the script computes
h3 = (ṅ_air·h2 + ṅ_fuel·LHV)/(ṅ_air+ṅ_fuel) and the run proceeds to a
result; no InvalidInput failure exists (a run can only fail inside a
property lookup). -/
theorem c2_no_fuel_validation (i : Inputs) :
    ∃ r, analyzeSystem gasLinear steamLinear i = some r ∧
      r.gas.h3 = (m_air * r.gas.h2 + i.m_fuel * i.biogas_lhv) / (m_air + i.m_fuel) := by
  obtain ⟨r, hr⟩ := analyze_linear_total i
  obtain ⟨hb, -, -, -, -, -, -, -, -⟩ := analyzeSystem_spec gasLinear steamLinear i r hr
  obtain ⟨-, -, -, -, -, -, -, -, hh3, -, -, -, -, -, -, -, -⟩ :=
    braytonCycle_spec gasLinear i.biogas_lhv i.m_fuel i.p1 i.t1 i.rp i.eta_c i.eta_t_gas r.gas hb
  exact ⟨r, hr, hh3⟩

/-- Inputs refuting C3: LHV = 0 with fuel flow 1, so the "combustion" cools
the stream below the compressor-exit temperature; rp = 10 as the slider
default. -/
def iC3 : Inputs := ⟨0, 1, 1, 300, 10, 1 / 2, 1, 40, 700, 1 / 10, 1 / 2⟩

/-- The result of the iC3 run with the linear providers. -/
def rC3 : Results :=
  ⟨⟨299, 300, 10, 299, 309, 309, 318, 318, 2385 / 8, 10, 2385 / 8, 1, 2305 / 8,
    2313 / 8, 2313 / 8, 2313 / 8, 2313 / 8⟩,
   ⟨0, 0, 700, 700, 700, 350, 3500, 2100, 2100⟩,
   15, -9, -1400,
   [("Gas Cycle Work", -9), ("Steam Cycle Work", -1400)],
   450, 450, -2574⟩

/-- C3 counterexample: a run with T3 < T2 that does not fail with
InvalidCycle — it completes and reports a negative gas-cycle net work. -/
theorem c3_counterexample :
    analyzeSystem gasLinear steamLinear iC3 = some rC3 ∧
    rC3.gas.t3 < rC3.gas.t2 ∧
    rC3.gasWork = -9 ∧ rC3.gasWork < 0 := by
  refine ⟨?_, by norm_num [rC3], rfl, by norm_num [rC3]⟩
  simp only [analyzeSystem, braytonCycle, rankineCycle, gasLinear, steamLinear, iC3, rC3,
    m_air, Option.bind_eq_bind, Option.some_bind, Option.pure_def, Option.some.injEq]
  norm_num

/-- The family of inputs exhibiting the missing T3 > T2 check: LHV = 0,
fuel flow 1, rp = 10 (inside the slider range), ηc = 1/2, ηt_gas = 1. -/
def iC3fam (t1 : ℚ) : Inputs := ⟨0, 1, 1, t1, 10, 1 / 2, 1, 40, 700, 1 / 10, 1 / 2⟩

/-- C3 (amended): the gas-cycle computation performs no rp > 1 or T3 > T2
validation and has no InvalidCycle failure; the UI slider keeps rp within
[5, 20], but whenever T3 ≤ T2 (here, for every inlet temperature above 0 K
in a family with LHV = 0) the run still completes and reports a negative
net work instead of failing. -/
theorem c3_no_cycle_validation (t1 : ℚ) (ht : 0 < t1) :
    ∃ r, analyzeSystem gasLinear steamLinear (iC3fam t1) = some r ∧
      r.gas.t3 < r.gas.t2 ∧ r.gasWork = -9 ∧ r.gasWork < 0 := by
  simp only [analyzeSystem, braytonCycle, rankineCycle, gasLinear, steamLinear, iC3fam, m_air,
    Option.bind_eq_bind, Option.some_bind, Option.pure_def]
  refine ⟨_, rfl, ?_, ?_, ?_⟩
  · dsimp only
    norm_num
    linarith
  · dsimp only
    ring
  · dsimp only
    norm_num
    linarith

theorem c3_witness :
    ∃ r, analyzeSystem gasLinear steamLinear (iC3fam 300) = some r ∧
      r.gas.t3 < r.gas.t2 ∧ r.gasWork = -9 ∧ r.gasWork < 0 :=
  c3_no_cycle_validation 300 (by norm_num)

theorem c6_witness :
    ((0 : ℚ) ≤ stW.x4s ∧ stW.x4s ≤ 1 ∧
      s_from_quality cW (1 / 10) stW.x4s = stW.s4s_ideal ∧
      stW.h4s_ideal = h_from_quality cW (1 / 10) stW.x4s) ∧
    rankineCycle (providerOfCurves cW c6h c6s c6b) 40 2000 (1 / 10) (1 / 2) = none := by
  have h := c6_quality_law cW c6h c6s c6b 40 700 (1 / 10) (1 / 2) (by norm_num [cW])
  have h2000 := c6_quality_law cW c6h c6s c6b 40 2000 (1 / 10) (1 / 2) (by norm_num [cW])
  have hin := h.1 stW rankineW6
  refine ⟨⟨hin.2.2.2.1, hin.2.2.2.2.1, hin.2.2.2.2.2.1, hin.2.2.2.2.2.2⟩, ?_⟩
  refine h2000.2 2 (by simp only [c6s]; norm_num) (Or.inr (by simp only [cW]; norm_num))

end ADHTC
